import Mathlib

/-!
Verification of the SSH key lifecycle manager (`src/ssh_manager.py`) of the
ssh-github-manager repository.  The Python module is shallowly embedded:
the `.ssh` directory is an association list of (file name, content) pairs,
external processes (ssh-keygen, ssh-add, ssh-agent, terminal emulators) are
oracles supplied through an environment record, and every fallible
operation returns `Except SSHKeyError _` mirroring the single Python
exception type.  File names are relative to the `.ssh` directory (the
constant directory prefix of the Python `Path` values is elided).
-/

namespace SSHGM

/-! ### Python string primitives -/

/-- Python's `sub in s` substring test. -/
def strContains (s sub : String) : Bool :=
  decide (sub.toList <:+: s.toList)

/-- Worker for `pySplit`, structurally recursive on a fuel argument so
that concrete evaluations reduce definitionally; each recursive call
consumes at least one character, so `l.length` fuel always suffices. -/
def pySplitF (sep : List Char) : Nat → List Char → List (List Char)
  | _, [] => [[]]
  | 0, l => [l]
  | fuel + 1, c :: rest =>
    if sep ≠ [] ∧ List.isPrefixOf sep (c :: rest) then
      [] :: pySplitF sep fuel (List.drop sep.length (c :: rest))
    else
      match pySplitF sep fuel rest with
      | [] => [[c]]
      | s :: ss => (c :: s) :: ss

/-- Python's `str.split(sep)` for a non-empty separator, on character
lists: splits at every (leftmost, non-overlapping) occurrence of `sep`.
An empty separator never occurs in the embedded code. -/
def pySplit (sep : List Char) (l : List Char) : List (List Char) :=
  pySplitF sep l.length l

/-- `pathlib`'s `Path.suffix` on a bare file name: the extension starting
at the last dot, provided that dot is neither the first nor the last
character of the name. -/
def pySuffix (name : String) : String :=
  let l := name.toList
  match l.reverse.findIdx? (· == '.') with
  | none => ""
  | some r =>
    let i := l.length - 1 - r
    if 0 < i ∧ i < l.length - 1 then (l.drop i).asString else ""

/-- `pathlib`'s `Path.with_suffix('.pub')` on a bare file name: replaces
the extension (as computed by `pySuffix`) by `.pub`, or appends `.pub`
when there is none. -/
def withSuffixPub (name : String) : String :=
  let l := name.toList
  match l.reverse.findIdx? (· == '.') with
  | none => name ++ ".pub"
  | some r =>
    let i := l.length - 1 - r
    if 0 < i ∧ i < l.length - 1 then (l.take i).asString ++ ".pub"
    else name ++ ".pub"

/-- Python's `str.lower()` (on the ASCII range the embedded messages
use): lower-case every character. -/
def pyLower (s : String) : String :=
  ⟨s.data.map Char.toLower⟩

/-- Python truthiness of an optional string (`None` and `""` are falsy). -/
def pyTruthy : Option String → Bool
  | none => false
  | some s => !(s == "")

/-! ### The `.ssh` directory -/

/-- The `.ssh` directory: an ordered list of (file name, content) pairs.
`iterdir()` enumerates the entries in list order; every entry is a regular
file (the directories the code skips via `is_file()` are not modelled). -/
structure FS where
  files : List (String × String)
deriving Repr, DecidableEq

/-- Content of the file called `n`, if present. -/
def FS.read? (fs : FS) (n : String) : Option String :=
  (fs.files.find? (fun e => e.1 == n)).map (·.2)

/-- `Path.exists()` for the file called `n`. -/
def FS.exist (fs : FS) (n : String) : Bool :=
  (fs.read? n).isSome

/-- `Path.unlink()`: remove the file called `n`. -/
def FS.unlink (fs : FS) (n : String) : FS :=
  ⟨fs.files.filter (fun e => !(e.1 == n))⟩

/-- Create or replace the file called `n` with content `c`. -/
def FS.write (fs : FS) (n : String) (c : String) : FS :=
  ⟨fs.files.filter (fun e => !(e.1 == n)) ++ [(n, c)]⟩

/-! ### Data model -/

/-- The single exception type of `src/ssh_manager.py` (lines 15-17): it
carries nothing but its message string. -/
structure SSHKeyError where
  message : String
deriving Repr, DecidableEq

/-- The dictionary returned by `generate_ssh_key` / `_generate_key_type`;
keys absent from a given Python dict are the default values here. -/
structure GenResult where
  success : Bool
  interactive : Bool := false
  key_type : String := ""
  private_key_path : String := ""
  public_key_path : String := ""
  email : String := ""
  message : String
deriving Repr, DecidableEq

/-- The result of `check_existing_keys` (lines 43-81). -/
inductive KeyCheck where
  | found (type private_path public_path : String)
  | notFound
deriving Repr, DecidableEq

/-- One entry of the list returned by `find_all_ssh_keys` (lines 83-117). -/
structure KeyEntry where
  type : String
  private_path : String
  public_path : String
deriving Repr, DecidableEq

/-- The classification dictionary built by the connection-test code
(lines 493-535): the success dict carries `username`, the failure dict
carries `exit_code`. -/
structure ConnResult where
  success : Bool
  message : String
  output : String
  username : Option String := none
  exit_code : Option Int := none
deriving Repr, DecidableEq

/-! ### External-process oracles -/

/-- Result of one external process invocation as observed by the caller:
either it completed with an exit code and captured output, or the
invocation itself raised (tool missing, timeout, ...). -/
inductive ProcResult where
  | ok (exitCode : Nat) (stdout stderr : String)
  | raises (msg : String)
deriving Repr, DecidableEq

/-- One `ssh-keygen` invocation as built by `_generate_key_type`
(lines 306-312): `ssh-keygen -t <key_type> -C <email> -f <target>
-N <passphrase>`. -/
structure KeygenCall where
  key_type : String
  email : String
  passphrase : String
  target : String
deriving Repr, DecidableEq

/-- Outcome of running `ssh-keygen` with `check=True` and a 30s timeout.
On success the flags record which of the two key files the tool actually
produced (the verification step of lines 337-338 re-checks both). -/
inductive KeygenOutcome where
  | success (writesPriv writesPub : Bool)
  | calledProcessError (output : String)
  | timeoutExpired
deriving Repr, DecidableEq

/-- Outcome of the platform permission commands attempted by
`_set_key_permissions` (lines 370-407). -/
inductive PermOutcome where
  | applied
  | failed (msg : String)
deriving Repr, DecidableEq

/-- The process environment seen by `_add_key_to_agent` (lines 409-491). -/
structure AgentEnv where
  platform : String
  sshAuthSockSet : Bool
  agentServiceQuery : ProcResult
  agentServiceStart : ProcResult
  sshAgentStart : ProcResult
  sshAdd : ProcResult
deriving Repr, DecidableEq

/-- Everything outside the `.ssh` directory that the module observes. -/
structure Env where
  /-- Outcome of `_ensure_ssh_directory` (lines 27-41): `some m` means the
  directory could not be created or stat'd, raising with message `m`. -/
  dirError : Option String
  /-- `check_command_availability "ssh-keygen"` (lines 167-192). -/
  sshKeygenAvailable : Bool
  /-- OS-level failure oracle for `Path.unlink()`: `some m` means
  unlinking that file raises an `OSError` rendered as `m`. -/
  unlinkFails : String → Option String
  /-- Outcome of each `ssh-keygen` invocation. -/
  keygen : KeygenCall → KeygenOutcome
  /-- Modelled from the spec: the private-key material the external
  key-generation tool writes into the private file on success. -/
  privBlob : String
  /-- Modelled from the spec: the base64 key material the external
  key-generation tool writes into the public file on success (between
  the algorithm marker and the comment). -/
  pubBlob : String
  /-- Outcome of spawning the detached terminal for interactive
  generation (lines 249-261): `some m` means every attempted terminal
  raised, the last failure carrying message `m`. -/
  terminalSpawnFails : Option String
  /-- Fallback comment `f"{username}@{hostname}"` (or `"user@localhost"`)
  computed at lines 216-223 when no email is supplied. -/
  defaultEmail : String
  /-- Outcome of the chmod/icacls attempts of `_set_key_permissions`. -/
  permOutcome : PermOutcome
  agent : AgentEnv

/-- The events the generation entry points can cause, in order: a
non-interactive `ssh-keygen` run, a detached interactive terminal spawn,
the permission-application step, and the agent-registration step. -/
inductive Event where
  | keygenRun (call : KeygenCall)
  | terminalSpawn (key_type target : String)
  | permApply (private_path public_path : String)
  | agentAdd (private_path : String)
deriving Repr, DecidableEq

/-! ### KeyStore operations -/

/-- `_ensure_ssh_directory` (lines 27-41): directory creation and the
permission warning are invisible to the file model; only the failure
path (wrapped into `SSHKeyError`) is observable. -/
def ensure_ssh_directory (env : Env) : Except SSHKeyError Unit :=
  match env.dirError with
  | some m => .error ⟨"Cannot access SSH directory: " ++ m⟩
  | none => .ok ()

/-- `check_existing_keys` (lines 43-81): conventional ED25519 pair first,
then conventional RSA pair, else not found. -/
def check_existing_keys (fs : FS) : KeyCheck :=
  if fs.exist "id_ed25519" && fs.exist "id_ed25519.pub" then
    .found "ed25519" "id_ed25519" "id_ed25519.pub"
  else if fs.exist "id_rsa" && fs.exist "id_rsa.pub" then
    .found "RSA" "id_rsa" "id_rsa.pub"
  else
    .notFound

/-- The key-type classification of `find_all_ssh_keys` (lines 95-104):
first textual marker match, in the order rsa, ed25519, ecdsa. -/
def classifyPub (content : String) : String :=
  if strContains content "ssh-rsa" then "RSA"
  else if strContains content "ssh-ed25519" then "ED25519"
  else if strContains content "ecdsa" then "ECDSA"
  else "unknown"

/-- `find_all_ssh_keys` (lines 83-117): every file that is not itself
`.pub`-suffixed and not a reserved name is a private-key candidate; it is
reported exactly when the file `with_suffix('.pub')` also exists, with
the type read off its content. -/
def find_all_ssh_keys (fs : FS) : List KeyEntry :=
  fs.files.filterMap (fun e =>
    if pySuffix e.1 == ".pub" || e.1 == "known_hosts" || e.1 == "config" then
      none
    else
      let pub := withSuffixPub e.1
      match fs.read? pub with
      | none => none
      | some content => some ⟨classifyPub content, e.1, pub⟩)

/-- `load_public_key` (lines 119-138).  The `SSHKeyError`s raised inside
the `try` are caught by its own generic handler and re-wrapped. -/
def load_public_key (fs : FS) (pubkey_path : String) : Except SSHKeyError String :=
  match fs.read? pubkey_path with
  | none =>
    .error ⟨"Cannot read public key: Public key file not found: " ++ pubkey_path⟩
  | some raw =>
    let content := raw.trim
    if content == "" then .error ⟨"Cannot read public key: Public key file is empty"⟩
    else .ok content

/-- `Path.unlink()` guarded by `Path.exists()` as `delete_ssh_key` and
the overwrite branch of `_generate_key_type` use it: a missing file is
skipped, an existing file is removed unless the OS refuses. -/
def tryUnlink (env : Env) (fs : FS) (n : String) : Except String FS :=
  if fs.exist n then
    match env.unlinkFails n with
    | some m => .error m
    | none => .ok (fs.unlink n)
  else .ok fs

/-- `delete_ssh_key` (lines 140-165): removes the private then the public
file, each skipped with a warning when absent; any `OSError` aborts and
is wrapped, leaving the removals already done in place. -/
def delete_ssh_key (env : Env) (fs : FS) (private_key_path public_key_path : String) :
    Except SSHKeyError Unit × FS :=
  match tryUnlink env fs private_key_path with
  | .error m => (.error ⟨"Failed to delete SSH key pair: " ++ m⟩, fs)
  | .ok fs1 =>
    match tryUnlink env fs1 public_key_path with
    | .error m => (.error ⟨"Failed to delete SSH key pair: " ++ m⟩, fs1)
    | .ok fs2 => (.ok (), fs2)

/-! ### Agent registration -/

/-- `_set_key_permissions` (lines 370-407): whatever the platform
permission commands do, the blanket handler at lines 405-407 logs a
warning and returns — the call never raises and never aborts anything. -/
def _set_key_permissions (outcome : PermOutcome) : Except String Unit :=
  match outcome with
  | .applied => .ok ()
  | .failed _ => .ok ()

/-- The tail of `_add_key_to_agent`, from the `ssh-add` run at line 465.
`resultBound` records whether the Python local `result` was assigned on
the way here (it is not when the POSIX branch found `SSH_AUTH_SOCK`
already set and skipped the agent start).  When the `ssh-add` invocation
raises, the handler at line 490 logs a warning and then falls into the
stranded connection-test block (lines 493-535), which reads `result`:
with `result` unbound this raises `UnboundLocalError`, which propagates;
with `result` bound the block computes a classification dict from the
stale process result and returns it, which every caller ignores. -/
def addKeyAfterEnsure (env : AgentEnv) (resultBound : Bool) : Except String Unit :=
  match env.sshAdd with
  | .raises _ =>
    if resultBound then .ok ()
    else .error "UnboundLocalError: local variable \u0027result\u0027 referenced before assignment"
  | .ok _ _ _ => .ok ()

/-- `_add_key_to_agent` (lines 409-491 and the stranded block 493-535):
ensures an agent is available (Windows service / POSIX `ssh-agent -s`),
then runs `ssh-add`.  All intended failure paths return after logging;
the only escaping exception is the `UnboundLocalError` of
`addKeyAfterEnsure`.  The macOS keychain sub-step (lines 474-485)
catches its own exceptions and is not modelled further; the environment
variables captured from a started agent are not observed by any claim. -/
def add_key_to_agent (env : AgentEnv) : Except String Unit :=
  if env.platform == "Windows" then
    match env.agentServiceQuery with
    | .raises _ => .ok ()
    | .ok _ out _ =>
      if strContains out "Running" then addKeyAfterEnsure env true
      else
        match env.agentServiceStart with
        | .raises _ => .ok ()
        | .ok code _ _ =>
          if code == 0 then addKeyAfterEnsure env true
          else .ok ()
  else
    if !env.sshAuthSockSet then
      match env.sshAgentStart with
      | .raises _ => .ok ()
      | .ok code _ _ =>
        if code == 0 then addKeyAfterEnsure env true
        else .ok ()
    else addKeyAfterEnsure env false

/-! ### Key generation -/

/-- Modelled from the spec: the textual algorithm marker the external
key-generation tool places at the start of the public-key file
(`ssh-ed25519` / `ssh-rsa`; §4.1 and §6 of the spec). -/
def markerOf (key_type : String) : String :=
  if key_type == "ed25519" then "ssh-ed25519"
  else if key_type == "rsa" then "ssh-rsa"
  else key_type

/-- Modelled from the spec: the public-key file written by the external
tool — algorithm marker, key material, and the comment (§4.1, §6). -/
def pubContent (key_type email blob : String) : String :=
  markerOf key_type ++ " " ++ blob ++ " " ++ email

/-- Target-path resolution of `_generate_key_type` (lines 292-302):
explicit truthy name wins, else the conventional name of the key type;
an unsupported type raises. -/
def resolvePaths (key_type : String) (key_name : Option String) :
    Except String (String × String) :=
  if pyTruthy key_name then
    let s := key_name.getD ""
    .ok (s, s ++ ".pub")
  else if key_type == "ed25519" then .ok ("id_ed25519", "id_ed25519.pub")
  else if key_type == "rsa" then .ok ("id_rsa", "id_rsa.pub")
  else .error ("Unsupported key type: " ++ key_type)

/-- The effective target file name of a generation attempt: the explicit
truthy name, else the conventional name of the attempted key type
(mirrors the branch structure of `resolvePaths`). -/
def targetName (key_type : String) (key_name : Option String) : String :=
  if pyTruthy key_name then key_name.getD ""
  else if key_type == "ed25519" then "id_ed25519"
  else "id_rsa"

/-- The discovery-side type name of a generation algorithm: the same
name up to letter case (`ed25519`/`ED25519`, `rsa`/`RSA`). -/
def typeNameOf (key_type : String) : String :=
  if key_type == "ed25519" then "ED25519" else "RSA"

/-- The wrapping performed by the generic handler of `_generate_key_type`
(lines 365-368) on any exception other than `CalledProcessError` and
`TimeoutExpired` — including the `SSHKeyError`s raised inside its own
`try` block, whose messages therefore reach the caller with this prefix. -/
def wrapKT (key_type msg : String) : String :=
  "Unexpected error generating " ++ key_type ++ " key: " ++ msg

/-- `_generate_key_type` (lines 289-368), returning the result, the
directory contents after the attempt, and the external events caused. -/
def _generate_key_type (env : Env) (fs : FS) (key_type email passphrase : String)
    (overwrite : Bool) (key_name : Option String) :
    Except SSHKeyError GenResult × FS × List Event :=
  match resolvePaths key_type key_name with
  | .error m => (.error ⟨wrapKT key_type m⟩, fs, [])
  | .ok (private_path, public_path) =>
    if (fs.exist private_path || fs.exist public_path) && !overwrite then
      (.error ⟨wrapKT key_type ("Key \u0027" ++ private_path ++
        "\u0027 already exists. Use overwrite=True to replace existing keys.")⟩, fs, [])
    else
      let removed : Except String FS :=
        if overwrite then
          match tryUnlink env fs private_path with
          | .error m => .error m
          | .ok fs1 => tryUnlink env fs1 public_path
        else .ok fs
      match removed with
      | .error m => (.error ⟨wrapKT key_type m⟩, fs, [])
      | .ok fs2 =>
        let call : KeygenCall := ⟨key_type, email, passphrase, private_path⟩
        match env.keygen call with
        | .calledProcessError out =>
          (.error ⟨"ssh-keygen failed: " ++ out⟩, fs2, [.keygenRun call])
        | .timeoutExpired =>
          (.error ⟨"SSH key generation timed out"⟩, fs2, [.keygenRun call])
        | .success writesPriv writesPub =>
          let fs3 := if writesPriv then fs2.write private_path env.privBlob else fs2
          let fs4 := if writesPub then
              fs3.write public_path (pubContent key_type email env.pubBlob)
            else fs3
          if !(fs4.exist private_path && fs4.exist public_path) then
            (.error ⟨wrapKT key_type ("Key files were not created: " ++ private_path ++
              ", " ++ public_path)⟩, fs4, [.keygenRun call])
          else
            -- `_set_key_permissions` never raises, whatever its outcome.
            let _perm := _set_key_permissions env.permOutcome
            match add_key_to_agent env.agent with
            | .error m =>
              (.error ⟨wrapKT key_type m⟩, fs4,
                [.keygenRun call, .permApply private_path public_path,
                 .agentAdd private_path])
            | .ok () =>
              (.ok { success := true, key_type := key_type,
                     private_key_path := private_path,
                     public_key_path := public_path, email := email,
                     message := "Successfully generated " ++ key_type ++
                       " SSH key pair" }, fs4,
                [.keygenRun call, .permApply private_path public_path,
                 .agentAdd private_path])

/-- The effective comment: `email or default` (lines 216-225). -/
def effEmail (env : Env) (email : Option String) : String :=
  if pyTruthy email then email.getD "" else env.defaultEmail

/-- `key_name or "id_ed25519"` as used by the interactive branch. -/
def interactiveTarget (key_name : Option String) : String :=
  if pyTruthy key_name then key_name.getD "" else "id_ed25519"

/-- `generate_ssh_key` (lines 194-287): directory check, tool
availability, comment defaulting, then either the fire-and-forget
interactive branch (passphrase absent) or the non-interactive ED25519
attempt with its conditional RSA fallback.  Every exception reaching the
outer handler (line 285) is re-wrapped with `"Key generation failed: "`. -/
def generate_ssh_key (env : Env) (fs : FS) (email : Option String)
    (passphrase : Option String) (overwrite : Bool) (key_name : Option String) :
    Except SSHKeyError GenResult × FS × List Event :=
  match env.dirError with
  | some m =>
    (.error ⟨"Key generation failed: Cannot access SSH directory: " ++ m⟩, fs, [])
  | none =>
    if !env.sshKeygenAvailable then
      (.error ⟨"Key generation failed: ssh-keygen command not found. Please install OpenSSH."⟩,
        fs, [])
    else
      let email' := effEmail env email
      match passphrase with
      | none =>
        match env.terminalSpawnFails with
        | some m => (.error ⟨"Key generation failed: " ++ m⟩, fs, [])
        | none =>
          (.ok { success := true, interactive := true,
                 message := "Geração de chave interativa iniciada. Por favor, insira a passphrase no novo terminal." },
            fs, [.terminalSpawn "ed25519" (interactiveTarget key_name)])
      | some pass =>
        match _generate_key_type env fs "ed25519" email' pass overwrite key_name with
        | (.ok r, fs1, ev1) => (.ok r, fs1, ev1)
        | (.error e, fs1, ev1) =>
          if strContains (pyLower e.message) "already exists" then
            (.error ⟨"Key generation failed: " ++ e.message⟩, fs1, ev1)
          else
            match _generate_key_type env fs1 "rsa" email' pass overwrite key_name with
            | (.ok r, fs2, ev2) => (.ok r, fs2, ev1 ++ ev2)
            | (.error e2, fs2, ev2) =>
              (.error ⟨"Key generation failed: Failed to generate both ed25519 and RSA keys: " ++
                e2.message⟩, fs2, ev1 ++ ev2)

/-! ### Connection-test classification -/

/-- The identity extraction of lines 497-503: the text between the first
`"Hi "` and the next `"!"`, with the placeholder when `"Hi "` is absent. -/
def extractUser (output : String) : String :=
  if strContains output "Hi " then
    (pySplit "!".toList ((pySplit "Hi ".toList output.toList).getD 1 [])).headD [] |>.asString
  else "your account"

/-- The result-classification logic of the GitHub connection test
(lines 493-535 of `src/ssh_manager.py`; the enclosing `def` of the
tester was lost from the source, leaving this block stranded inside
`_add_key_to_agent`'s exception handler — the classification itself is
translated verbatim from those lines). -/
def classify_github_test (returncode : Int) (output : String) : ConnResult :=
  if returncode == 1 && strContains output "successfully authenticated" then
    let username := extractUser output
    { success := true,
      message := "✅ Successfully authenticated with GitHub as " ++ username ++ "!",
      output := output, username := some username }
  else
    let guidance :=
      if strContains output "Permission denied (publickey)" then
        "❌ Authentication failed. Please:\n1. Add your public key to GitHub (Settings → SSH and GPG keys)\n2. Ensure your key is added to ssh-agent (ssh-add ~/.ssh/id_ed25519)"
      else if strContains output "Could not resolve hostname" then
        "❌ Network error. Check your internet connection and DNS settings."
      else if strContains output "Connection timed out" || strContains output "Connection refused" then
        "❌ Connection blocked. Check firewall settings or try a different network."
      else if strContains output "No such file or directory" || strContains output "No such identity" then
        "❌ SSH key not found. Generate an SSH key first."
      else if strContains output "Agent admitted failure to sign" then
        "❌ Key not loaded in ssh-agent. Run: ssh-add ~/.ssh/id_ed25519"
      else if returncode == 255 then
        "❌ SSH connection failed. Verify your SSH configuration."
      else
        "❌ Unknown error. Verify your SSH key is correctly configured."
    { success := false, message := guidance, output := output,
      exit_code := some returncode }

/-! ### Concrete fixtures used in witnesses and counterexamples -/

/-- A benign agent environment: POSIX, agent socket present, `ssh-add`
completes with exit 0. -/
def agentOk : AgentEnv :=
  { platform := "Linux", sshAuthSockSet := true,
    agentServiceQuery := .ok 0 "" "", agentServiceStart := .ok 0 "" "",
    sshAgentStart := .ok 0 "" "", sshAdd := .ok 0 "" "" }

/-- POSIX with the agent socket already advertised but the `ssh-add`
binary missing, so the `subprocess.run` call itself raises. -/
def agentNoAdd : AgentEnv :=
  { agentOk with sshAdd := .raises "FileNotFoundError: ssh-add" }

/-- A benign environment: directory fine, tool present, every
`ssh-keygen` run succeeds and writes both files. -/
def envBase : Env :=
  { dirError := none, sshKeygenAvailable := true,
    unlinkFails := fun _ => none,
    keygen := fun _ => .success true true,
    privBlob := "PRIVATE-KEY-MATERIAL",
    pubBlob := "AAAAC3NzaC1lZDI1NTE5AAAAIGtestMaterial",
    terminalSpawnFails := none,
    defaultEmail := "user@localhost",
    permOutcome := .applied,
    agent := agentOk }

/-- `ssh-keygen` rejects ED25519 but supports RSA. -/
def envEdFails : Env :=
  { envBase with keygen := fun c =>
      if c.key_type == "ed25519" then .calledProcessError "unknown key type ed25519"
      else .success true true }

/-- Benign generation environment whose agent step hits the stranded-code
path of `_add_key_to_agent`. -/
def envAgentBug : Env := { envBase with agent := agentNoAdd }

def fsEmpty : FS := ⟨[]⟩

/-- Only the public half of the conventional ED25519 pair exists. -/
def fsPubOnly : FS := ⟨[("id_ed25519.pub", "ssh-ed25519 AAA a@b.com")]⟩

def fsRsaPair : FS := ⟨[("id_rsa", "RSAKEY"), ("id_rsa.pub", "ssh-rsa BBB a@b.com")]⟩

def fsEdPair : FS := ⟨[("id_ed25519", "EDKEY"), ("id_ed25519.pub", "ssh-ed25519 AAA a@b.com")]⟩

/-- A key pair whose public file carries both the ed25519 and the rsa
textual markers. -/
def fsMixed : FS := ⟨[("k", "KEY"), ("k.pub", "ssh-ed25519 AAA ssh-rsa BBB")]⟩

def fsDelete : FS := ⟨[("k1", "K"), ("k1.pub", "P")]⟩

/-! ### String and substring lemmas -/

theorem toList_append (s t : String) : (s ++ t).toList = s.toList ++ t.toList := by
  simp [String.toList, String.data_append]

theorem strContains_iff {s sub : String} :
    strContains s sub = true ↔ sub.toList <:+: s.toList := by
  simp [strContains]

theorem strContains_eq_false {s sub : String} :
    strContains s sub = false ↔ ¬ sub.toList <:+: s.toList := by
  simp [strContains]

theorem mid_of_pre {l₁ l₂ : List Char} (h : l₁ <+: l₂) : l₁ <:+: l₂ := by
  obtain ⟨t, rfl⟩ := h
  exact ⟨[], t, by simp⟩

theorem mid_of_suf {l₁ l₂ : List Char} (h : l₁ <:+ l₂) : l₁ <:+: l₂ := by
  obtain ⟨s, rfl⟩ := h
  exact ⟨s, [], by simp⟩

theorem mid_of_pre_suf {l₁ m l : List Char} (h₁ : l₁ <+: m) (h₂ : m <:+ l) :
    l₁ <:+: l := by
  obtain ⟨t, rfl⟩ := h₁
  obtain ⟨s, rfl⟩ := h₂
  exact ⟨s, t, by simp⟩

theorem suf_of_suf_cons {l₁ l₂ : List Char} (c : Char) (h : l₁ <:+ l₂) :
    l₁ <:+ c :: l₂ := by
  obtain ⟨s, rfl⟩ := h
  exact ⟨c :: s, rfl⟩

theorem mid_append_right (a : List Char) {sub b : List Char} (h : sub <:+: b) :
    sub <:+: a ++ b := by
  obtain ⟨s, t, hst⟩ := h
  exact ⟨a ++ s, t, by rw [← hst]; simp⟩

theorem mid_append_left (b : List Char) {sub a : List Char} (h : sub <:+: a) :
    sub <:+: a ++ b := by
  obtain ⟨s, t, hst⟩ := h
  exact ⟨s, t ++ b, by rw [← hst]; simp⟩

theorem asString_toList (s : String) : s.toList.asString = s := by
  cases s
  rfl

theorem asString_data (s : String) : s.data.asString = s := by
  cases s
  rfl

/-- Any occurrence of `sep` in `a ++ b` lies in `a`, lies in `b`, or
straddles the boundary with a nonempty piece on each side. -/
theorem mid_append_decomp {sep a b : List Char} (h : sep <:+: a ++ b) :
    sep <:+: a ∨ sep <:+: b ∨
      ∃ s t, sep = s ++ t ∧ s ≠ [] ∧ t ≠ [] ∧ s <:+ a ∧ t <+: b := by
  induction a with
  | nil => exact Or.inr (Or.inl (by simpa using h))
  | cons x a' ih =>
    rcases List.infix_cons_iff.mp h with hpre | hmid
    · rcases le_or_lt sep.length (x :: a').length with hle | hlt
      · have : sep <+: x :: a' := by
          have := (List.isPrefix_append_of_length hle).mp (by simpa using hpre)
          exact this
        exact Or.inl (mid_of_pre this)
      · have hpa : (x :: a') <+: sep :=
          @List.prefix_of_prefix_length_le Char (x :: a') sep ((x :: a') ++ b)
            (List.prefix_append (x :: a') b) (by simpa using hpre) (Nat.le_of_lt hlt)
        obtain ⟨t, ht⟩ := hpa
        rcases Decidable.em (t = []) with rfl | htne
        · simp at ht
          exact Or.inl (by rw [← ht])
        · have htb : t <+: b := by
            obtain ⟨r, hr⟩ := hpre
            refine ⟨r, ?_⟩
            have : (x :: a') ++ (t ++ r) = (x :: a') ++ b := by
              rw [← List.append_assoc, ht]
              simpa using hr
            exact List.append_cancel_left this
          exact Or.inr (Or.inr ⟨x :: a', t, ht.symm, List.cons_ne_nil _ _, htne,
            List.suffix_rfl, htb⟩)
    · rcases ih hmid with h₁ | h₂ | ⟨s, t, hst, hs, ht, hsa, htb⟩
      · exact Or.inl (List.infix_cons h₁)
      · exact Or.inr (Or.inl h₂)
      · exact Or.inr (Or.inr ⟨s, t, hst, hs, ht, suf_of_suf_cons x hsa, htb⟩)

theorem not_mid_append {sep a b : List Char} (hna : ¬ sep <:+: a) (hnb : ¬ sep <:+: b)
    (hstr : ∀ s t, sep = s ++ t → s ≠ [] → t ≠ [] → ¬ (s <:+ a ∧ t <+: b)) :
    ¬ sep <:+: a ++ b := by
  intro h
  rcases mid_append_decomp h with h₁ | h₂ | ⟨s, t, hst, hs, ht, hsa, htb⟩
  · exact hna h₁
  · exact hnb h₂
  · exact hstr s t hst hs ht ⟨hsa, htb⟩

theorem getLast_eq_of_suf {l₁ l₂ : List Char} (h : l₁ <:+ l₂) (hne : l₁ ≠ []) :
    l₂.getLast? = l₁.getLast? := by
  obtain ⟨w, rfl⟩ := h
  exact List.getLast?_append_of_ne_nil w hne

theorem head_eq_of_pre {l₁ l₂ : List Char} (h : l₁ <+: l₂) (hne : l₁ ≠ []) :
    l₂.head? = l₁.head? := by
  obtain ⟨w, rfl⟩ := h
  cases l₁ with
  | nil => simp at hne
  | cons a t => simp

theorem mem_dropLast_of_pre {s sep : List Char} (h : s <+: sep) (hlt : s.length < sep.length)
    {c : Char} (hc : s.getLast? = some c) : c ∈ sep.dropLast := by
  obtain ⟨r, rfl⟩ := h
  have hr : r ≠ [] := by
    intro hr
    subst hr
    simp at hlt
  rw [List.dropLast_append_of_ne_nil _ hr]
  exact List.mem_append_left _ (List.mem_of_mem_getLast? (by simp [hc]))

theorem mem_tail_of_suf {t sep : List Char} (h : t <:+ sep) (hlt : t.length < sep.length)
    {c : Char} (hc : t.head? = some c) : c ∈ sep.tail := by
  obtain ⟨r, rfl⟩ := h
  cases r with
  | nil => simp at hlt
  | cons x r' =>
    simp only [List.cons_append, List.tail_cons]
    exact List.mem_append_right _ (List.mem_of_mem_head? (by simp [hc]))

/-- Straddle elimination by the last character of the left part: no piece
of `sep` can end `a` when `a`'s last character occurs nowhere in
`sep.dropLast`. -/
theorem straddle_elim_last {sep a b : List Char} (c₀ : Char) (ha : a.getLast? = some c₀)
    (hc : c₀ ∉ sep.dropLast) :
    ∀ s t, sep = s ++ t → s ≠ [] → t ≠ [] → ¬ (s <:+ a ∧ t <+: b) := by
  intro s t hst hs ht ⟨hsa, _⟩
  apply hc
  have hlast : s.getLast? = some c₀ := by
    rw [← getLast_eq_of_suf hsa hs, ha]
  have hpre : s <+: sep := hst ▸ List.prefix_append s t
  have hlt : s.length < sep.length := by
    subst hst
    simp only [List.length_append]
    cases t with
    | nil => simp at ht
    | cons u v => simp
  exact mem_dropLast_of_pre hpre hlt hlast

/-- Straddle elimination by the first character of the right part: no
piece of `sep` can begin `b` when `b`'s first character occurs nowhere in
`sep.tail`. -/
theorem straddle_elim_head {sep a b : List Char} (c₀ : Char) (hb : b.head? = some c₀)
    (hc : c₀ ∉ sep.tail) :
    ∀ s t, sep = s ++ t → s ≠ [] → t ≠ [] → ¬ (s <:+ a ∧ t <+: b) := by
  intro s t hst hs ht ⟨_, htb⟩
  apply hc
  have hhead : t.head? = some c₀ := by
    rw [← head_eq_of_pre htb ht, hb]
  have hsuf : t <:+ sep := hst ▸ ⟨s, rfl⟩
  have hlt : t.length < sep.length := by
    subst hst
    simp only [List.length_append]
    cases s with
    | nil => simp at hs
    | cons u v => simp
  exact mem_tail_of_suf hsuf hlt hhead

/-! ### `pySplit` lemmas -/

theorem pySplitF_nil (sep : List Char) (f : Nat) : pySplitF sep f [] = [[]] := by
  cases f <;> rfl

/-- The fuel argument of `pySplitF` is irrelevant as long as it covers
the length of the input. -/
theorem pySplitF_congr {sep : List Char} :
    ∀ (f₁ f₂ : Nat) (l : List Char), l.length ≤ f₁ → l.length ≤ f₂ →
      pySplitF sep f₁ l = pySplitF sep f₂ l := by
  intro f₁
  induction f₁ with
  | zero =>
    intro f₂ l h1 h2
    have hnil : l = [] := List.eq_nil_of_length_eq_zero (Nat.le_zero.mp h1)
    subst hnil
    rw [pySplitF_nil, pySplitF_nil]
  | succ n ih =>
    intro f₂ l h1 h2
    cases l with
    | nil => rw [pySplitF_nil, pySplitF_nil]
    | cons c rest =>
      cases f₂ with
      | zero => simp at h2
      | succ m =>
        simp only [pySplitF]
        simp only [List.length_cons, Nat.succ_le_succ_iff] at h1 h2
        by_cases hc : (sep ≠ [] ∧ List.isPrefixOf sep (c :: rest))
        · rw [if_pos hc, if_pos hc]
          have hsl : 1 ≤ sep.length := by
            cases sep with
            | nil => exact absurd rfl hc.1
            | cons x xs => simp
          have hlen1 : (List.drop sep.length (c :: rest)).length ≤ n := by
            simp only [List.length_drop, List.length_cons]
            omega
          have hlen2 : (List.drop sep.length (c :: rest)).length ≤ m := by
            simp only [List.length_drop, List.length_cons]
            omega
          rw [ih m _ hlen1 hlen2]
        · rw [if_neg hc, if_neg hc]
          rw [ih m rest h1 h2]

/-- The defining one-step equation of `pySplit` on a nonempty list. -/
theorem pySplit_cons (sep : List Char) (c : Char) (rest : List Char) :
    pySplit sep (c :: rest) =
      if sep ≠ [] ∧ List.isPrefixOf sep (c :: rest) then
        [] :: pySplit sep (List.drop sep.length (c :: rest))
      else
        match pySplit sep rest with
        | [] => [[c]]
        | s :: ss => (c :: s) :: ss := by
  show pySplitF sep (rest.length + 1) (c :: rest) = _
  simp only [pySplitF]
  by_cases hc : (sep ≠ [] ∧ List.isPrefixOf sep (c :: rest))
  · rw [if_pos hc, if_pos hc]
    have hsl : 1 ≤ sep.length := by
      cases sep with
      | nil => exact absurd rfl hc.1
      | cons x xs => simp
    have hlen : (List.drop sep.length (c :: rest)).length ≤ rest.length := by
      simp only [List.length_drop, List.length_cons]
      omega
    rw [pySplitF_congr rest.length (List.drop sep.length (c :: rest)).length _ hlen
      (Nat.le_refl _)]
    rfl
  · rw [if_neg hc, if_neg hc]
    rfl

theorem pySplit_nil (sep : List Char) : pySplit sep [] = [[]] := rfl

theorem pySplit_ne_nil (sep l : List Char) : pySplit sep l ≠ [] := by
  induction l with
  | nil => simp [pySplit_nil]
  | cons c rest ih =>
    rw [pySplit_cons]
    split
    · simp
    · match hps : pySplit sep rest with
      | [] => simp
      | s :: ss => simp

theorem pySplit_cons_of_notPrefix {sep : List Char} {c : Char}
    {rest : List Char} (h : List.isPrefixOf sep (c :: rest) = false) :
    pySplit sep (c :: rest) =
      (c :: (pySplit sep rest).headD []) :: (pySplit sep rest).tail := by
  rw [pySplit_cons]
  rw [if_neg (by simp [h])]
  match hps : pySplit sep rest with
  | [] => exact absurd hps (pySplit_ne_nil sep rest)
  | s :: ss => simp

theorem pySplit_sep_append {sep : List Char} (hsep : sep ≠ []) (l : List Char) :
    pySplit sep (sep ++ l) = [] :: pySplit sep l := by
  match sep, hsep with
  | c :: sep', _ =>
    rw [List.cons_append, pySplit_cons]
    rw [if_pos ⟨by simp, by
      rw [← List.cons_append]
      simp [List.isPrefixOf_iff_prefix, List.prefix_append]⟩]
    congr 1
    rw [← List.cons_append, List.drop_left]

/-- When no occurrence of `sep` starts inside `a` (including straddling
occurrences), splitting `a ++ v` prepends `a` to the first segment of the
splitting of `v`. -/
theorem pySplit_append {sep : List Char} (a v : List Char)
    (h : ∀ a₂, a₂ ≠ [] → a₂ <:+ a → List.isPrefixOf sep (a₂ ++ v) = false) :
    pySplit sep (a ++ v) =
      (a ++ (pySplit sep v).headD []) :: (pySplit sep v).tail := by
  induction a with
  | nil =>
    simp only [List.nil_append]
    match hps : pySplit sep v with
    | [] => exact absurd hps (pySplit_ne_nil sep v)
    | s :: ss => simp
  | cons x a' ih =>
    rw [List.cons_append]
    rw [pySplit_cons_of_notPrefix
      (by simpa using h (x :: a') (by simp) List.suffix_rfl)]
    rw [ih (fun a₂ hne hsuf => h a₂ hne (suf_of_suf_cons x hsuf))]
    simp

theorem pre_mid_of_suf {sep a₂ l : List Char} (hsuf : a₂ <:+ l) (hpre : sep <+: a₂) :
    sep <:+: l :=
  mid_of_pre_suf hpre hsuf

/-- Splitting a list in which the separator does not occur yields the
singleton. -/
theorem pySplit_of_not_mid {sep l : List Char}
    (h : ¬ sep <:+: l) : pySplit sep l = [l] := by
  have := pySplit_append l [] (fun a₂ hne hsuf => by
    rw [List.append_nil]
    by_contra hc
    have : List.isPrefixOf sep a₂ = true := by
      cases hp : List.isPrefixOf sep a₂
      · exact absurd hp hc
      · rfl
    exact h (pre_mid_of_suf hsuf (List.isPrefixOf_iff_prefix.mp this)))
  rw [List.append_nil] at this
  rw [this, pySplit_nil]
  simp

/-- The side condition of `pySplit_append` follows from `sep` occurring
nowhere in `a` plus a bound on short suffixes: any suffix of `a` shorter
than `sep` must fail to start `sep ++ ...`-style occurrences.  Here the
short suffixes are excluded through `a`'s last character. -/
theorem pySplit_side_of_last {sep a v : List Char}
    (hna : ¬ sep <:+: a) {c₀ : Char} (ha : a.getLast? = some c₀)
    (hc : c₀ ∉ sep.dropLast) :
    ∀ a₂, a₂ ≠ [] → a₂ <:+ a → List.isPrefixOf sep (a₂ ++ v) = false := by
  intro a₂ hne hsuf
  by_contra hcon
  have hpre : sep <+: a₂ ++ v := by
    apply List.isPrefixOf_iff_prefix.mp
    cases hp : List.isPrefixOf sep (a₂ ++ v)
    · exact absurd hp hcon
    · rfl
  rcases le_or_lt sep.length a₂.length with hle | hlt
  · have : sep <+: a₂ := (List.isPrefix_append_of_length hle).mp hpre
    exact hna (pre_mid_of_suf hsuf this)
  · have hpa : a₂ <+: sep :=
      @List.prefix_of_prefix_length_le Char a₂ sep (a₂ ++ v)
        (List.prefix_append a₂ v) hpre (Nat.le_of_lt hlt)
    have hlast : a₂.getLast? = some c₀ := by
      rw [← getLast_eq_of_suf hsuf hne, ha]
    exact hc (mem_dropLast_of_pre hpa hlt hlast)

/-! ### File-system lemmas -/

theorem find?_filter_not (files : List (String × String)) (n : String) :
    (files.filter (fun e => !(e.1 == n))).find? (fun e => e.1 == n) = none := by
  rw [List.find?_eq_none]
  intro x hx
  simpa using (List.mem_filter.mp hx).2

theorem find?_filter_of_imp {α : Type} {p q : α → Bool} (l : List α)
    (h : ∀ x, p x = true → q x = true) : (l.filter q).find? p = l.find? p := by
  induction l with
  | nil => rfl
  | cons a t ih =>
    cases hq : q a with
    | true =>
      cases hp : p a with
      | true => simp [List.filter_cons, List.find?_cons, hq, hp]
      | false => simp [List.filter_cons, List.find?_cons, hq, hp, ih]
    | false =>
      cases hp : p a with
      | true => exact absurd (h a hp) (by simp [hq])
      | false => simp [List.filter_cons, List.find?_cons, hq, hp, ih]

theorem FS.read?_write_self (fs : FS) (n c : String) :
    (fs.write n c).read? n = some c := by
  simp [FS.write, FS.read?, List.find?_append, find?_filter_not]

theorem FS.read?_write_ne (fs : FS) {n nn : String} (c : String) (h : nn ≠ n) :
    (fs.write n c).read? nn = fs.read? nn := by
  simp only [FS.write, FS.read?, List.find?_append]
  rw [find?_filter_of_imp]
  · simp [Ne.symm h]
  · intro x hx
    simp at hx ⊢
    rw [hx]
    exact h

theorem FS.exist_write_self (fs : FS) (n c : String) :
    (fs.write n c).exist n = true := by
  simp [FS.exist, FS.read?_write_self]

theorem FS.exist_write_ne (fs : FS) {n nn : String} (c : String) (h : nn ≠ n) :
    (fs.write n c).exist nn = fs.exist nn := by
  simp [FS.exist, FS.read?_write_ne fs c h]

theorem FS.exist_unlink_self (fs : FS) (n : String) :
    (fs.unlink n).exist n = false := by
  simp [FS.unlink, FS.exist, FS.read?, find?_filter_not]

theorem FS.exist_unlink_ne (fs : FS) {n nn : String} (h : nn ≠ n) :
    (fs.unlink n).exist nn = fs.exist nn := by
  simp only [FS.unlink, FS.exist, FS.read?]
  rw [find?_filter_of_imp]
  intro x hx
  simp at hx ⊢
  rw [hx]
  exact h

theorem FS.mem_write_of_ne {fs : FS} {m d n c : String} (hm : (m, d) ∈ fs.files)
    (h : m ≠ n) : (m, d) ∈ (fs.write n c).files := by
  simp only [FS.write]
  exact List.mem_append_left _ (List.mem_filter.mpr ⟨hm, by simp [h]⟩)

theorem FS.mem_write_self (fs : FS) (n c : String) : (n, c) ∈ (fs.write n c).files := by
  simp [FS.write]

/-! ### `pyLower` and resolution lemmas -/

theorem pyLower_append (a b : String) : pyLower (a ++ b) = pyLower a ++ pyLower b := by
  apply String.ext
  simp [pyLower, String.data_append]

theorem toList_pyLower (s : String) : (pyLower s).toList = s.toList.map Char.toLower := rfl

theorem resolvePaths_shape {kt : String} {kn : Option String} {a b : String}
    (h : resolvePaths kt kn = .ok (a, b)) : b = a ++ ".pub" := by
  unfold resolvePaths at h
  split at h
  · simp at h
    rw [← h.1, ← h.2]
  · split at h
    · simp at h
      rw [← h.1, ← h.2]
      rfl
    · split at h
      · simp at h
        rw [← h.1, ← h.2]
        rfl
      · simp at h

theorem resolvePaths_ed (kn : Option String) :
    resolvePaths "ed25519" kn = .ok (targetName "ed25519" kn, targetName "ed25519" kn ++ ".pub") := by
  unfold resolvePaths targetName
  cases h : pyTruthy kn <;> simp [h]

theorem resolvePaths_rsa (kn : Option String) :
    resolvePaths "rsa" kn = .ok (targetName "rsa" kn, targetName "rsa" kn ++ ".pub") := by
  unfold resolvePaths targetName
  cases h : pyTruthy kn <;> simp [h]

theorem tryUnlink_ok_shape {env : Env} {fs : FS} {n : String} {fs2 : FS}
    (h : tryUnlink env fs n = .ok fs2) :
    fs2.exist n = false ∧ ∀ m, m ≠ n → fs2.exist m = fs.exist m := by
  unfold tryUnlink at h
  split at h
  case isTrue hex =>
    cases hu : env.unlinkFails n <;> rw [hu] at h
    case none =>
      simp only [Except.ok.injEq] at h
      subst h
      exact ⟨FS.exist_unlink_self fs n, fun m hm => FS.exist_unlink_ne fs hm⟩
    case some m => simp at h
  case isFalse hex =>
    simp only [Except.ok.injEq] at h
    subst h
    exact ⟨by simpa using hex, fun m hm => rfl⟩

/-! ### Claims -/

/-- C6: for every key directory, the default-key lookup returns the
conventional ED25519 pair when both its files exist, otherwise the
conventional RSA pair when both its files exist, otherwise not-found;
a pair with only one of its two files present is never returned. -/
theorem C6_default_key_lookup (fs : FS) :
    (fs.exist "id_ed25519" = true → fs.exist "id_ed25519.pub" = true →
      check_existing_keys fs = .found "ed25519" "id_ed25519" "id_ed25519.pub") ∧
    (¬(fs.exist "id_ed25519" = true ∧ fs.exist "id_ed25519.pub" = true) →
      fs.exist "id_rsa" = true → fs.exist "id_rsa.pub" = true →
      check_existing_keys fs = .found "RSA" "id_rsa" "id_rsa.pub") ∧
    (¬(fs.exist "id_ed25519" = true ∧ fs.exist "id_ed25519.pub" = true) →
      ¬(fs.exist "id_rsa" = true ∧ fs.exist "id_rsa.pub" = true) →
      check_existing_keys fs = .notFound) ∧
    (∀ t p q, check_existing_keys fs = .found t p q →
      fs.exist p = true ∧ fs.exist q = true) := by
  refine ⟨?_, ?_, ?_, ?_⟩
  · intro ha hb
    simp [check_existing_keys, ha, hb]
  · intro hn ha hb
    have hed : (fs.exist "id_ed25519" && fs.exist "id_ed25519.pub") = false := by
      cases hx : fs.exist "id_ed25519" <;> cases hy : fs.exist "id_ed25519.pub" <;>
        simp_all
    simp [check_existing_keys, hed, ha, hb]
  · intro hn hm
    have hed : (fs.exist "id_ed25519" && fs.exist "id_ed25519.pub") = false := by
      cases hx : fs.exist "id_ed25519" <;> cases hy : fs.exist "id_ed25519.pub" <;>
        simp_all
    have hrsa : (fs.exist "id_rsa" && fs.exist "id_rsa.pub") = false := by
      cases hx : fs.exist "id_rsa" <;> cases hy : fs.exist "id_rsa.pub" <;> simp_all
    simp [check_existing_keys, hed, hrsa]
  · intro t p q h
    unfold check_existing_keys at h
    split at h
    case isTrue hc =>
      simp only [KeyCheck.found.injEq] at h
      obtain ⟨_, hp, hq⟩ := h
      subst hp
      subst hq
      exact ⟨(Bool.and_eq_true .. |>.mp hc).1, (Bool.and_eq_true .. |>.mp hc).2⟩
    case isFalse =>
      split at h
      case isTrue hc =>
        simp only [KeyCheck.found.injEq] at h
        obtain ⟨_, hp, hq⟩ := h
        subst hp
        subst hq
        exact ⟨(Bool.and_eq_true .. |>.mp hc).1, (Bool.and_eq_true .. |>.mp hc).2⟩
      case isFalse => simp at h

/-- C6 witness: on a directory holding only the conventional RSA pair the
lookup reports that pair. -/
theorem C6_default_key_lookup_witness :
    check_existing_keys fsRsaPair = .found "RSA" "id_rsa" "id_rsa.pub" :=
  (C6_default_key_lookup fsRsaPair).2.1 (by decide) (by decide) (by decide)

/-- C8: deleting a pair is idempotent-safe: after a successful delete both
files are gone and a second delete succeeds without touching anything; a
directory missing both files is a no-op success; and with no OS-level
removal failures the operation always succeeds — absence alone never
raises. -/
theorem C8_delete_twice (env : Env) (fs : FS) (priv pub : String) :
    (∀ fs1, delete_ssh_key env fs priv pub = (.ok (), fs1) →
      fs1.exist priv = false ∧ fs1.exist pub = false ∧
      delete_ssh_key env fs1 priv pub = (.ok (), fs1)) ∧
    (fs.exist priv = false → fs.exist pub = false →
      delete_ssh_key env fs priv pub = (.ok (), fs)) ∧
    (env.unlinkFails priv = none → env.unlinkFails pub = none →
      (delete_ssh_key env fs priv pub).1 = .ok ()) := by
  have hnoop : ∀ g : FS, g.exist priv = false → g.exist pub = false →
      delete_ssh_key env g priv pub = (.ok (), g) := by
    intro g hp hq
    have t1 : tryUnlink env g priv = .ok g := by
      unfold tryUnlink
      rw [hp]
      simp
    have t2 : tryUnlink env g pub = .ok g := by
      unfold tryUnlink
      rw [hq]
      simp
    simp [delete_ssh_key, t1, t2]
  refine ⟨?_, hnoop fs, ?_⟩
  · intro fs1 h
    unfold delete_ssh_key at h
    cases h1 : tryUnlink env fs priv <;> simp only [h1] at h
    case error m => simp at h
    case ok fsa =>
      cases h2 : tryUnlink env fsa pub <;> simp only [h2] at h
      case error m => simp at h
      case ok fsb =>
        simp only [Prod.mk.injEq] at h
        obtain ⟨-, hb⟩ := h
        subst hb
        obtain ⟨hq, hpre⟩ := tryUnlink_ok_shape h2
        have hp : fsb.exist priv = false := by
          by_cases hpp : priv = pub
          · rw [hpp]
            exact hq
          · rw [hpre priv hpp]
            exact (tryUnlink_ok_shape h1).1
        exact ⟨hp, hq, hnoop fsb hp hq⟩
  · intro hu1 hu2
    obtain ⟨fsa, h1⟩ : ∃ g, tryUnlink env fs priv = .ok g := by
      unfold tryUnlink
      rw [hu1]
      cases hp : fs.exist priv <;> simp
    obtain ⟨fsb, h2⟩ : ∃ g, tryUnlink env fsa pub = .ok g := by
      unfold tryUnlink
      rw [hu2]
      cases hp : fsa.exist pub <;> simp
    simp [delete_ssh_key, h1, h2]

/-- C8 witness: concrete double delete of an existing pair. -/
theorem C8_delete_twice_witness :
    FS.exist ⟨[]⟩ "k1" = false ∧ FS.exist ⟨[]⟩ "k1.pub" = false ∧
    delete_ssh_key envBase ⟨[]⟩ "k1" "k1.pub" = (.ok (), ⟨[]⟩) :=
  (C8_delete_twice envBase fsDelete "k1" "k1.pub").1 ⟨[]⟩ rfl

/-- C9: a generation request with an absent passphrase spawns the
detached interactive terminal and returns at once with the
interactive-started success result; the directory is untouched and no
key-generation run, permission application or agent registration takes
place. -/
theorem C9_interactive_branch (env : Env) (fs : FS) (email : Option String)
    (overwrite : Bool) (key_name : Option String)
    (h1 : env.dirError = none) (h2 : env.sshKeygenAvailable = true)
    (h3 : env.terminalSpawnFails = none) :
    generate_ssh_key env fs email none overwrite key_name =
      (.ok { success := true, interactive := true,
             message := "Geração de chave interativa iniciada. Por favor, insira a passphrase no novo terminal." },
       fs, [.terminalSpawn "ed25519" (interactiveTarget key_name)]) := by
  unfold generate_ssh_key
  rw [h1, h2, h3]
  simp

/-- C9 witness: the interactive branch at a concrete environment. -/
theorem C9_interactive_branch_witness :
    generate_ssh_key envBase fsEdPair (some "a@b.com") none true (some "github_key") =
      (.ok { success := true, interactive := true,
             message := "Geração de chave interativa iniciada. Por favor, insira a passphrase no novo terminal." },
       fsEdPair, [.terminalSpawn "ed25519" "github_key"]) :=
  C9_interactive_branch envBase fsEdPair (some "a@b.com") true (some "github_key")
    rfl rfl rfl

set_option maxRecDepth 8192 in
/-- C10 (implicit): the embedded module has exactly one exception type,
`SSHKeyError`, which carries nothing but a message — two errors with the
same message are equal, so the spec's error kinds (storage, collision,
tool failure) are distinguishable only through the message text, as the
directory-, load-, generation- and delete-failure examples below show. -/
theorem C10_single_exception_type :
    (∀ e₁ e₂ : SSHKeyError, e₁.message = e₂.message → e₁ = e₂) ∧
    (∀ (env : Env) (m : String), env.dirError = some m →
      ensure_ssh_directory env = .error ⟨"Cannot access SSH directory: " ++ m⟩) ∧
    load_public_key fsEmpty "id_ed25519.pub" =
      .error ⟨"Cannot read public key: Public key file not found: id_ed25519.pub"⟩ ∧
    (generate_ssh_key envBase fsPubOnly (some "a@b.com") (some "") false none).1 =
      .error ⟨"Key generation failed: Unexpected error generating ed25519 key: Key \u0027id_ed25519\u0027 already exists. Use overwrite=True to replace existing keys."⟩ ∧
    (delete_ssh_key { envBase with unlinkFails := fun _ => some "[Errno 13] Permission denied" }
        fsDelete "k1" "k1.pub").1 =
      .error ⟨"Failed to delete SSH key pair: [Errno 13] Permission denied"⟩ ∧
    strContains "Key generation failed: Unexpected error generating ed25519 key: Key \u0027id_ed25519\u0027 already exists. Use overwrite=True to replace existing keys."
      "already exists" = true := by
  refine ⟨?_, ?_, rfl, rfl, rfl, rfl⟩
  · intro e₁ e₂ h
    cases e₁
    cases e₂
    simpa using h
  · intro env m h
    unfold ensure_ssh_directory
    rw [h]

/-- C10 witness: the two generic components at concrete arguments. -/
theorem C10_single_exception_type_witness :
    (SSHKeyError.mk "boom" = SSHKeyError.mk "boom") ∧
    ensure_ssh_directory { envBase with dirError := some "[Errno 13] Permission denied" } =
      .error ⟨"Cannot access SSH directory: [Errno 13] Permission denied"⟩ :=
  ⟨C10_single_exception_type.1 ⟨"boom"⟩ ⟨"boom"⟩ rfl,
   C10_single_exception_type.2.1 _ _ rfl⟩

set_option maxRecDepth 8192 in
/-- C3 counterexample: an output that contains the marker
`"Hi octocat! You've successfully authenticated"` with exit code 1 is
classified as success, but when an earlier `"Hi "` occurs in the output
the extracted identity is taken from that first occurrence, not
`"octocat"`. -/
theorem C3_counterexample :
    (classify_github_test 1
        "Say Hi to Bob! Hi octocat! You\u0027ve successfully authenticated").success = true ∧
    (classify_github_test 1
        "Say Hi to Bob! Hi octocat! You\u0027ve successfully authenticated").username =
      some "to Bob" ∧
    some "to Bob" ≠ some ("octocat" : String) :=
  ⟨rfl, rfl, by decide⟩

set_option maxRecDepth 8192 in
/-- C3 as amended: exit code 1 together with the authenticated marker in
the output always classifies as success; the extracted identity is the
text between the first `"Hi "` of the output and the next `"!"` — hence
exactly `name` (in particular `"octocat"`) whenever the output starts
with the marker `"Hi <name>! You've successfully authenticated"`. -/
theorem C3_success_classification (name rest : String)
    (h1 : '!' ∉ name.toList) (h2 : ¬ ("Hi ".toList <:+: name.toList)) :
    (classify_github_test 1
        ("Hi " ++ name ++ "! You\u0027ve successfully authenticated" ++ rest)).success = true ∧
    (classify_github_test 1
        ("Hi " ++ name ++ "! You\u0027ve successfully authenticated" ++ rest)).username =
      some name ∧
    (∀ (rc : Int) (out : String), rc = 1 →
      strContains out "successfully authenticated" = true →
      (classify_github_test rc out).success = true) := by
  have hl : ("Hi " ++ name ++ "! You\u0027ve successfully authenticated" ++ rest).toList =
      "Hi ".toList ++ (name.toList ++
        ("! You\u0027ve successfully authenticated".toList ++ rest.toList)) := by
    simp [toList_append, List.append_assoc]
  have hauth : strContains
      ("Hi " ++ name ++ "! You\u0027ve successfully authenticated" ++ rest)
      "successfully authenticated" = true := by
    rw [strContains_iff, hl]
    apply mid_append_right
    apply mid_append_right
    apply mid_append_left
    decide
  have hHi : strContains
      ("Hi " ++ name ++ "! You\u0027ve successfully authenticated" ++ rest) "Hi " = true := by
    rw [strContains_iff, hl]
    exact mid_of_pre (List.prefix_append _ _)
  -- the infix-free part before the next separator occurrence
  have hlitne : ("! You\u0027ve successfully authenticated".toList : List Char) ≠ [] := by
    decide
  have hna : ¬ ("Hi ".toList <:+:
      name.toList ++ "! You\u0027ve successfully authenticated".toList) := by
    refine not_mid_append h2 (by decide) ?_
    exact straddle_elim_head '!' (by decide) (by decide)
  have hlast : (name.toList ++ "! You\u0027ve successfully authenticated".toList).getLast? =
      some 'd' := by
    rw [List.getLast?_append_of_ne_nil _ hlitne]
    decide
  have hsplit1 : pySplit "Hi ".toList
      ("Hi " ++ name ++ "! You\u0027ve successfully authenticated" ++ rest).toList =
      [] :: pySplit "Hi ".toList
        (name.toList ++ ("! You\u0027ve successfully authenticated".toList ++ rest.toList)) := by
    rw [hl]
    exact pySplit_sep_append (by decide) _
  have hsplit2 : pySplit "Hi ".toList
      (name.toList ++ ("! You\u0027ve successfully authenticated".toList ++ rest.toList)) =
      ((name.toList ++ "! You\u0027ve successfully authenticated".toList) ++
        (pySplit "Hi ".toList rest.toList).headD []) ::
        (pySplit "Hi ".toList rest.toList).tail := by
    rw [← List.append_assoc]
    exact pySplit_append _ _
      (pySplit_side_of_last hna hlast (by decide))
  -- the second split, on "!", returns `name` as first segment
  have hbang : ∀ v : List Char,
      pySplit "!".toList (name.toList ++ ('!' :: v)) =
        (name.toList ++ (pySplit "!".toList ('!' :: v)).headD []) ::
          (pySplit "!".toList ('!' :: v)).tail := by
    intro v
    apply pySplit_append
    intro a₂ hne hsuf
    match a₂, hne with
    | c :: w, _ =>
      have hcmem : c ∈ name.toList := hsuf.sublist.subset (by simp)
      have hcne : ¬ ('!' = c) := fun hc => h1 (hc ▸ hcmem)
      simp [List.isPrefixOf, hcne]
  have hbang2 : ∀ v : List Char,
      pySplit "!".toList ('!' :: v) = [] :: pySplit "!".toList v := by
    intro v
    have := pySplit_sep_append (show "!".toList ≠ ([] : List Char) by decide) v
    simpa using this
  have huser : extractUser
      ("Hi " ++ name ++ "! You\u0027ve successfully authenticated" ++ rest) = name := by
    unfold extractUser
    rw [if_pos hHi, hsplit1, hsplit2]
    have hseg : ((name.toList ++ "! You\u0027ve successfully authenticated".toList) ++
        (pySplit "Hi ".toList rest.toList).headD []) =
        name.toList ++ ('!' ::
          (" You\u0027ve successfully authenticated".toList ++
            (pySplit "Hi ".toList rest.toList).headD [])) := by
      simp
    simp only [List.getD_cons_succ, List.getD_cons_zero]
    rw [hseg, hbang, hbang2]
    simp [asString_data]
  refine ⟨?_, ?_, ?_⟩
  · unfold classify_github_test
    rw [if_pos (by simp [hauth])]
  · unfold classify_github_test
    rw [if_pos (by simp [hauth])]
    simpa using huser
  · intro rc out hrc hcon
    subst hrc
    unfold classify_github_test
    rw [if_pos (by simp [hcon])]

/-- C3 witness: the marker at the start of the output yields identity
`octocat`. -/
theorem C3_success_classification_witness :
    (classify_github_test 1
        ("Hi " ++ "octocat" ++ "! You\u0027ve successfully authenticated" ++ "")).success = true ∧
    (classify_github_test 1
        ("Hi " ++ "octocat" ++ "! You\u0027ve successfully authenticated" ++ "")).username =
      some "octocat" :=
  ⟨(C3_success_classification "octocat" "" (by decide) (by decide)).1,
   (C3_success_classification "octocat" "" (by decide) (by decide)).2.1⟩

set_option maxRecDepth 8192 in
/-- C4 counterexample: a public key file containing both the ed25519 and
the rsa markers is classified RSA — the code checks `ssh-rsa` first, so
the first-match precedence is rsa before ed25519 before ecdsa, not
ed25519 first as claimed. -/
theorem C4_counterexample :
    strContains "ssh-ed25519 AAA ssh-rsa BBB" "ssh-ed25519" = true ∧
    strContains "ssh-ed25519 AAA ssh-rsa BBB" "ssh-rsa" = true ∧
    find_all_ssh_keys fsMixed = [⟨"RSA", "k", "k.pub"⟩] ∧
    ("RSA" : String) ≠ "ED25519" :=
  ⟨rfl, rfl, rfl, by decide⟩

/-- C4 as amended: every entry listed by `find_all_ssh_keys` is a
candidate whose public file (same base name plus the public suffix, as
computed by `with_suffix`) exists, and its type is classified from that
file's text by first-match precedence rsa, then ed25519, then ecdsa. -/
theorem C4_find_all_pairs_and_precedence :
    (∀ (fs : FS) (e : KeyEntry), e ∈ find_all_ssh_keys fs →
      e.public_path = withSuffixPub e.private_path ∧
      fs.exist e.public_path = true ∧
      ∃ c, fs.read? e.public_path = some c ∧ e.type = classifyPub c) ∧
    (∀ c, strContains c "ssh-rsa" = true → classifyPub c = "RSA") ∧
    (∀ c, strContains c "ssh-rsa" = false → strContains c "ssh-ed25519" = true →
      classifyPub c = "ED25519") ∧
    (∀ c, strContains c "ssh-rsa" = false → strContains c "ssh-ed25519" = false →
      strContains c "ecdsa" = true → classifyPub c = "ECDSA") := by
  refine ⟨?_, ?_, ?_, ?_⟩
  · intro fs e he
    unfold find_all_ssh_keys at he
    obtain ⟨a, hmem, hf⟩ := List.mem_filterMap.mp he
    dsimp only at hf
    split at hf
    · simp at hf
    · cases hr : fs.read? (withSuffixPub a.1) <;> rw [hr] at hf
      · simp at hf
      · simp only [Option.some.injEq] at hf
        subst hf
        exact ⟨rfl, by simp [FS.exist, hr], _, hr, rfl⟩
  · intro c h
    simp [classifyPub, h]
  · intro c h1 h2
    simp [classifyPub, h1, h2]
  · intro c h1 h2 h3
    simp [classifyPub, h1, h2, h3]

set_option maxRecDepth 8192 in
/-- C4 witness: the amended theorem at the mixed-marker directory and at
a concrete content string. -/
theorem C4_find_all_pairs_witness :
    (KeyEntry.mk "RSA" "k" "k.pub").public_path = withSuffixPub "k" ∧
    fsMixed.exist "k.pub" = true ∧
    classifyPub "ssh-rsa CCC" = "RSA" :=
  have h := C4_find_all_pairs_and_precedence.1 fsMixed ⟨"RSA", "k", "k.pub"⟩ (by decide)
  ⟨h.1, h.2.1, C4_find_all_pairs_and_precedence.2.1 "ssh-rsa CCC" rfl⟩

/-- The collision branch of `_generate_key_type` (lines 316-318): with a
target file present and `overwrite=False` the attempt raises before any
unlink or tool run, and the generic handler wraps the message. -/
theorem generate_key_type_collision (env : Env) (fs : FS) (email pass : String)
    (key_name : Option String)
    (hex : (fs.exist (targetName "ed25519" key_name) ||
        fs.exist (targetName "ed25519" key_name ++ ".pub")) = true) :
    _generate_key_type env fs "ed25519" email pass false key_name =
      (.error ⟨wrapKT "ed25519" ("Key \u0027" ++ targetName "ed25519" key_name ++
        "\u0027 already exists. Use overwrite=True to replace existing keys.")⟩, fs, []) := by
  unfold _generate_key_type
  rw [resolvePaths_ed]
  simp [hex]

/-- The wrapped collision message still contains `"already exists"` after
lower-casing, so the fallback test of `generate_ssh_key` line 274 fires. -/
theorem collision_msg_lower (tn : String) :
    strContains (pyLower (wrapKT "ed25519" ("Key \u0027" ++ tn ++
      "\u0027 already exists. Use overwrite=True to replace existing keys."))) "already exists" = true := by
  rw [strContains_iff]
  unfold wrapKT
  simp only [pyLower_append, toList_append, List.append_assoc]
  apply mid_append_right
  apply mid_append_right
  apply mid_append_right
  apply mid_append_right
  apply mid_append_right
  decide

/-- C1 as amended: a non-interactive request whose resolved ED25519
target (private or public file) already exists with `overwrite=false`
always fails with the collision error; the message contains
`"already exists"` and names the pair's private-key file name (not
necessarily the conflicting file itself), the directory is unchanged,
and no external event — in particular no key-generation run — occurs. -/
theorem C1_collision_blocks_generation (env : Env) (fs : FS) (email : Option String)
    (pass : String) (key_name : Option String)
    (h1 : env.dirError = none) (h2 : env.sshKeygenAvailable = true)
    (hex : (fs.exist (targetName "ed25519" key_name) ||
        fs.exist (targetName "ed25519" key_name ++ ".pub")) = true) :
    generate_ssh_key env fs email (some pass) false key_name =
      (.error ⟨"Key generation failed: " ++ wrapKT "ed25519"
        ("Key \u0027" ++ targetName "ed25519" key_name ++
          "\u0027 already exists. Use overwrite=True to replace existing keys.")⟩, fs, []) ∧
    strContains ("Key generation failed: " ++ wrapKT "ed25519"
      ("Key \u0027" ++ targetName "ed25519" key_name ++
        "\u0027 already exists. Use overwrite=True to replace existing keys."))
      "already exists" = true ∧
    strContains ("Key generation failed: " ++ wrapKT "ed25519"
      ("Key \u0027" ++ targetName "ed25519" key_name ++
        "\u0027 already exists. Use overwrite=True to replace existing keys."))
      (targetName "ed25519" key_name) = true := by
  refine ⟨?_, ?_, ?_⟩
  · unfold generate_ssh_key
    rw [h1, h2]
    simp only [Bool.not_true, Bool.false_eq_true, if_false]
    rw [generate_key_type_collision env fs (effEmail env email) pass key_name hex]
    simp only [collision_msg_lower, if_true]
  · rw [strContains_iff]
    unfold wrapKT
    simp only [toList_append, List.append_assoc]
    apply mid_append_right
    apply mid_append_right
    apply mid_append_right
    apply mid_append_right
    apply mid_append_right
    apply mid_append_right
    decide
  · rw [strContains_iff]
    unfold wrapKT
    simp only [toList_append, List.append_assoc]
    apply mid_append_right
    apply mid_append_right
    apply mid_append_right
    apply mid_append_right
    apply mid_append_right
    apply mid_append_left
    exact List.infix_rfl

set_option maxRecDepth 8192 in
/-- C1 counterexample: when only the public half conflicts, the collision
error names `id_ed25519`, not the conflicting path `id_ed25519.pub` —
the message does not contain the conflicting file's name. -/
theorem C1_counterexample :
    fsPubOnly.exist "id_ed25519.pub" = true ∧
    fsPubOnly.exist "id_ed25519" = false ∧
    (generate_ssh_key envBase fsPubOnly (some "a@b.com") (some "") false none).1 =
      .error ⟨"Key generation failed: Unexpected error generating ed25519 key: Key \u0027id_ed25519\u0027 already exists. Use overwrite=True to replace existing keys."⟩ ∧
    strContains "Key generation failed: Unexpected error generating ed25519 key: Key \u0027id_ed25519\u0027 already exists. Use overwrite=True to replace existing keys."
      "id_ed25519.pub" = false ∧
    (generate_ssh_key envBase fsPubOnly (some "a@b.com") (some "") false none).2.1 =
      fsPubOnly :=
  ⟨rfl, rfl, rfl, rfl, rfl⟩

set_option maxRecDepth 8192 in
/-- C1 witness: the amended theorem at a concrete directory holding only
the public half of the pair. -/
theorem C1_collision_blocks_generation_witness :
    generate_ssh_key envBase fsPubOnly (some "a@b.com") (some "") false none =
      (.error ⟨"Key generation failed: " ++ wrapKT "ed25519"
        ("Key \u0027" ++ targetName "ed25519" none ++
          "\u0027 already exists. Use overwrite=True to replace existing keys.")⟩,
       fsPubOnly, []) :=
  (C1_collision_blocks_generation envBase fsPubOnly (some "a@b.com") "" none
    rfl rfl (by decide)).1

set_option maxRecDepth 8192 in
/-- C2 counterexample: with an explicit key name and an ED25519 tool
failure whose message does not mention an existing target, `generate_ssh_key`
still performs the RSA retry (and here succeeds with it) — the fallback is
not suppressed by an explicit name, contrary to the claim. -/
theorem C2_counterexample :
    (some "github_key" : Option String) ≠ none ∧
    (generate_ssh_key envEdFails fsEmpty (some "a@b.com") (some "") false
        (some "github_key")).1 =
      .ok { success := true, key_type := "rsa", private_key_path := "github_key",
            public_key_path := "github_key.pub", email := "a@b.com",
            message := "Successfully generated rsa SSH key pair" } ∧
    Event.keygenRun ⟨"rsa", "a@b.com", "", "github_key"⟩ ∈
      (generate_ssh_key envEdFails fsEmpty (some "a@b.com") (some "") false
        (some "github_key")).2.2 :=
  ⟨by decide, rfl, by decide⟩

/-- C2 as amended: when the non-interactive ED25519 attempt fails, the
single RSA retry — with the same comment, passphrase, overwrite flag and
key name — happens if and only if the failure message does not contain
`"already exists"` (case-insensitively); an `"already exists"` failure is
surfaced immediately, wrapped by the outer handler, with no further
event. -/
theorem C2_rsa_fallback (env : Env) (fs : FS) (email : Option String) (pass : String)
    (overwrite : Bool) (key_name : Option String) (e : SSHKeyError) (fs1 : FS)
    (ev1 : List Event)
    (h1 : env.dirError = none) (h2 : env.sshKeygenAvailable = true)
    (hfail : _generate_key_type env fs "ed25519" (effEmail env email) pass overwrite
      key_name = (.error e, fs1, ev1)) :
    (strContains (pyLower e.message) "already exists" = true →
      generate_ssh_key env fs email (some pass) overwrite key_name =
        (.error ⟨"Key generation failed: " ++ e.message⟩, fs1, ev1)) ∧
    (strContains (pyLower e.message) "already exists" = false →
      generate_ssh_key env fs email (some pass) overwrite key_name =
        (match _generate_key_type env fs1 "rsa" (effEmail env email) pass overwrite
          key_name with
         | (.ok r, fs2, ev2) => (.ok r, fs2, ev1 ++ ev2)
         | (.error e2, fs2, ev2) =>
           (.error ⟨"Key generation failed: Failed to generate both ed25519 and RSA keys: " ++
             e2.message⟩, fs2, ev1 ++ ev2))) := by
  constructor <;> intro hc <;>
  · unfold generate_ssh_key
    rw [h1, h2]
    simp only [Bool.not_true, Bool.false_eq_true, if_false]
    rw [hfail]
    simp only [hc, if_true, if_false, Bool.false_eq_true]

/-- C2 witness: an `"already exists"` failure is surfaced with no retry. -/
theorem C2_rsa_fallback_witness :
    generate_ssh_key envBase fsEdPair (some "a@b.com") (some "") false none =
      (.error ⟨"Key generation failed: Unexpected error generating ed25519 key: Key \u0027id_ed25519\u0027 already exists. Use overwrite=True to replace existing keys."⟩,
       fsEdPair, []) :=
  (C2_rsa_fallback envBase fsEdPair (some "a@b.com") "" false none
      ⟨"Unexpected error generating ed25519 key: Key \u0027id_ed25519\u0027 already exists. Use overwrite=True to replace existing keys."⟩
      fsEdPair [] rfl rfl rfl).1 rfl

set_option maxRecDepth 8192 in
/-- C5 (code bug): with both key files successfully created, a failing
`ssh-add` invocation drives `_add_key_to_agent` into the stranded
connection-test block with the local `result` unbound, the resulting
`UnboundLocalError` escapes, and generation reports failure — although
every key file exists.  `_set_key_permissions`, by contrast, never
raises, whatever the permission outcome. -/
theorem C5_agent_failure_fails_generation :
    (∀ o : PermOutcome, _set_key_permissions o = .ok ()) ∧
    add_key_to_agent agentNoAdd =
      .error "UnboundLocalError: local variable \u0027result\u0027 referenced before assignment" ∧
    (generate_ssh_key envAgentBug fsEmpty (some "a@b.com") (some "") false none).1 =
      .error ⟨"Key generation failed: Failed to generate both ed25519 and RSA keys: Unexpected error generating rsa key: UnboundLocalError: local variable \u0027result\u0027 referenced before assignment"⟩ ∧
    (generate_ssh_key envAgentBug fsEmpty (some "a@b.com") (some "") false none).2.1.exist
      "id_ed25519" = true ∧
    (generate_ssh_key envAgentBug fsEmpty (some "a@b.com") (some "") false none).2.1.exist
      "id_ed25519.pub" = true := by
  refine ⟨?_, rfl, rfl, rfl, rfl⟩
  intro o
  cases o <;> rfl

/-! ### Round-trip infrastructure (C7) -/

theorem ne_append_pub (s : String) : s ≠ s ++ ".pub" := by
  intro h
  have hlen := congrArg String.length h
  rw [String.length_append] at hlen
  have h4 : (".pub" : String).length = 4 := rfl
  omega

theorem findIdx_dot_none {s : String} (h : '.' ∉ s.toList) :
    s.toList.reverse.findIdx? (· == '.') = none := by
  rw [List.findIdx?_eq_none_iff]
  intro x hx
  exact beq_eq_false_iff_ne.mpr (fun hxe => h (hxe ▸ List.mem_reverse.mp hx))

theorem pySuffix_no_dot {s : String} (h : '.' ∉ s.toList) : pySuffix s = "" := by
  unfold pySuffix
  simp only [findIdx_dot_none h]

theorem withSuffixPub_no_dot {s : String} (h : '.' ∉ s.toList) :
    withSuffixPub s = s ++ ".pub" := by
  unfold withSuffixPub
  simp only [findIdx_dot_none h]

/-- The public-key text written for an RSA generation always classifies
as RSA: its first marker check matches. -/
theorem classifyPub_rsa (em blob : String) :
    classifyPub (pubContent "rsa" em blob) = "RSA" := by
  unfold classifyPub
  have h : strContains (pubContent "rsa" em blob) "ssh-rsa" = true := by
    rw [strContains_iff]
    unfold pubContent markerOf
    simp only [toList_append, List.append_assoc]
    exact mid_of_pre (List.prefix_append _ _)
  simp [h]

/-- The public-key text written for an ED25519 generation classifies as
ED25519 provided neither the key material nor the comment smuggles in an
`ssh-rsa` marker (the marker cannot straddle the field boundaries). -/
theorem classifyPub_ed (em blob : String) (hb : strContains blob "ssh-rsa" = false)
    (he : strContains em "ssh-rsa" = false) :
    classifyPub (pubContent "ed25519" em blob) = "ED25519" := by
  unfold classifyPub
  have hrsa : strContains (pubContent "ed25519" em blob) "ssh-rsa" = false := by
    rw [strContains_eq_false]
    unfold pubContent markerOf
    simp only [toList_append, List.append_assoc]
    refine not_mid_append (by decide) ?_ (straddle_elim_last '9' (by decide) (by decide))
    refine not_mid_append (by decide) ?_ (straddle_elim_last ' ' (by decide) (by decide))
    refine not_mid_append (strContains_eq_false.mp hb) ?_
      (straddle_elim_head ' ' (by simp) (by decide))
    refine not_mid_append (by decide) (strContains_eq_false.mp he)
      (straddle_elim_last ' ' (by decide) (by decide))
  have hed : strContains (pubContent "ed25519" em blob) "ssh-ed25519" = true := by
    rw [strContains_iff]
    unfold pubContent markerOf
    simp only [toList_append, List.append_assoc]
    exact mid_of_pre (List.prefix_append _ _)
  simp [hrsa, hed]

/-- Membership in `find_all_ssh_keys`: an unskipped private candidate
whose derived public file is readable is listed with the classified type. -/
theorem mem_find_all {fs : FS} {priv d content : String}
    (hmem : (priv, d) ∈ fs.files)
    (hcond : (pySuffix priv == ".pub" || priv == "known_hosts" || priv == "config") = false)
    (hr : fs.read? (withSuffixPub priv) = some content) :
    (⟨classifyPub content, priv, withSuffixPub priv⟩ : KeyEntry) ∈ find_all_ssh_keys fs := by
  unfold find_all_ssh_keys
  refine List.mem_filterMap.mpr ⟨(priv, d), hmem, ?_⟩
  dsimp only
  rw [if_neg (by simp [hcond])]
  rw [hr]

/-- Shape of the two files removed before a run: whenever the collision
check passed, the directory handed to `ssh-keygen` contains neither
target file. -/
theorem removed_ok_shape {env : Env} {fs : FS} {priv pub : String} {ow : Bool} {fsr : FS}
    (hpq : priv ≠ pub)
    (hcol : ¬(((fs.exist priv || fs.exist pub) && !ow) = true))
    (hrem : (if ow then
        (match tryUnlink env fs priv with
         | Except.error m => Except.error m
         | Except.ok fs1 => tryUnlink env fs1 pub)
      else Except.ok fs) = Except.ok fsr) :
    fsr.exist priv = false ∧ fsr.exist pub = false := by
  cases ow with
  | false =>
    simp only [if_false, Bool.false_eq_true, Except.ok.injEq] at hrem
    subst hrem
    simp only [Bool.not_false, Bool.and_true] at hcol
    constructor
    · cases hp : fs.exist priv
      · rfl
      · exact absurd (by simp [hp]) hcol
    · cases hp : fs.exist pub
      · rfl
      · exact absurd (by simp [hp]) hcol
  | true =>
    simp only [if_true] at hrem
    cases h1 : tryUnlink env fs priv <;> simp only [h1] at hrem
    case error m => simp at hrem
    case ok fsa =>
      obtain ⟨hqa, hpres⟩ := tryUnlink_ok_shape hrem
      refine ⟨?_, hqa⟩
      rw [hpres priv hpq]
      exact (tryUnlink_ok_shape h1).1

/-- Success shape of `_generate_key_type`: a successful attempt resolved
its target, ran the tool, and left the directory holding the private
file and the freshly written public file, with the result record naming
exactly those paths. -/
theorem generate_key_type_ok {env : Env} {fs : FS} {kt em pass : String}
    {ow : Bool} {kn : Option String} {r : GenResult} {fsr : FS} {evts : List Event}
    (h : _generate_key_type env fs kt em pass ow kn = (.ok r, fsr, evts)) :
    ∃ priv, resolvePaths kt kn = .ok (priv, priv ++ ".pub") ∧
      r.success = true ∧ r.interactive = false ∧ r.key_type = kt ∧
      r.private_key_path = priv ∧
      r.public_key_path = priv ++ ".pub" ∧ r.email = em ∧
      fsr.read? (priv ++ ".pub") = some (pubContent kt em env.pubBlob) ∧
      (priv, env.privBlob) ∈ fsr.files := by
  unfold _generate_key_type at h
  cases hrp : resolvePaths kt kn <;> rw [hrp] at h <;> dsimp only at h
  case error m => simp at h
  case ok pq =>
    obtain ⟨priv, pub⟩ := pq
    have hpub : pub = priv ++ ".pub" := resolvePaths_shape hrp
    subst hpub
    have hpq : priv ≠ priv ++ ".pub" := ne_append_pub priv
    refine ⟨priv, rfl, ?_⟩
    split at h
    · simp at h
    next hcol =>
      split at h
      · simp at h
      next fsr2 hrem =>
        have hclean := removed_ok_shape hpq hcol hrem
        cases hkg : env.keygen ⟨kt, em, pass, priv⟩ <;> rw [hkg] at h <;>
          dsimp only at h
        case calledProcessError out => simp at h
        case timeoutExpired => simp at h
        case success wp wq =>
          cases wp <;> cases wq <;>
            simp only [eq_false (by simp : ¬(false = true)),
              eq_true (rfl : true = true), if_true, if_false] at h
          case false.false =>
            split at h
            · simp at h
            next hver =>
              exact absurd (by simp [hclean.1]) hver
          case false.true =>
            split at h
            · simp at h
            next hver =>
              exact absurd (by simp [FS.exist_write_ne _ _ hpq, hclean.1]) hver
          case true.false =>
            split at h
            · simp at h
            next hver =>
              exact absurd (by
                simp [FS.exist_write_ne _ _ (Ne.symm hpq), hclean.2,
                  FS.exist_write_self]) hver
          case true.true =>
            split at h
            · simp at h
            next hver =>
              cases hag : add_key_to_agent env.agent <;> rw [hag] at h <;>
                dsimp only at h
              case error m => simp at h
              case ok u =>
                simp only [Prod.mk.injEq, Except.ok.injEq] at h
                obtain ⟨hr, hfs, -⟩ := h
                subst hr
                subst hfs
                refine ⟨rfl, rfl, rfl, rfl, rfl, rfl, ?_, ?_⟩
                · exact FS.read?_write_self _ _ _
                · exact FS.mem_write_of_ne (FS.mem_write_self _ _ _) hpq

/-- The side conditions discovery needs from a generation target name:
when the explicit name (if any) is dot-free and unreserved, so is the
resolved target name, and the discovery filter does not skip it. -/
theorem name_conditions (kt : String) (hkt : kt = "ed25519" ∨ kt = "rsa")
    (kn : Option String)
    (hname : ∀ s, kn = some s → s ≠ "" →
      ('.' ∉ s.toList ∧ s ≠ "known_hosts" ∧ s ≠ "config")) :
    '.' ∉ (targetName kt kn).toList ∧
    (pySuffix (targetName kt kn) == ".pub" || targetName kt kn == "known_hosts" ||
      targetName kt kn == "config") = false := by
  unfold targetName
  cases hkn : pyTruthy kn with
  | true =>
    match kn, hkn with
    | some s, hkn =>
      have hs : s ≠ "" := by
        intro hc
        subst hc
        simp [pyTruthy] at hkn
      obtain ⟨hdot, hkh, hcf⟩ := hname s rfl hs
      simp only [if_true, eq_true (rfl : true = true), Option.getD_some]
      exact ⟨hdot, by simp [pySuffix_no_dot hdot, hkh, hcf]⟩
  | false =>
    rw [if_neg (by simp [hkn])]
    rcases hkt with rfl | rfl
    · exact ⟨by decide, by decide⟩
    · exact ⟨by decide, by decide⟩

set_option maxRecDepth 8192 in
/-- C7 counterexample: a pair generated under the dotted name
`backup.key` is created at `backup.key`/`backup.key.pub`, but discovery
pairs `backup.key` with `backup.pub` (`with_suffix` replaces the
extension), so the freshly created pair is not listed at all. -/
theorem C7_counterexample :
    (generate_ssh_key envBase fsEmpty (some "a@b.com") (some "") false
        (some "backup.key")).1 =
      .ok { success := true, key_type := "ed25519", private_key_path := "backup.key",
            public_key_path := "backup.key.pub", email := "a@b.com",
            message := "Successfully generated ed25519 SSH key pair" } ∧
    (generate_ssh_key envBase fsEmpty (some "a@b.com") (some "") false
        (some "backup.key")).2.1.exist "backup.key" = true ∧
    (generate_ssh_key envBase fsEmpty (some "a@b.com") (some "") false
        (some "backup.key")).2.1.exist "backup.key.pub" = true ∧
    find_all_ssh_keys (generate_ssh_key envBase fsEmpty (some "a@b.com") (some "")
        false (some "backup.key")).2.1 = [] :=
  ⟨rfl, rfl, rfl, rfl⟩

/-- C7 as amended: a pair successfully created by the non-interactive
generation operation is subsequently listed by `find_all_ssh_keys` with
the inferred type matching the generation algorithm (same name up to
case), provided the key file name contains no dot and is not a reserved
discovery name, and neither the tool's key material nor the comment
contains the `ssh-rsa` marker of the other algorithm. -/
theorem C7_roundtrip_discovery (env : Env) (fs : FS) (email : Option String)
    (pass : String) (overwrite : Bool) (key_name : Option String)
    (r : GenResult) (fsr : FS) (evts : List Event)
    (hname : ∀ s, key_name = some s → s ≠ "" →
      ('.' ∉ s.toList ∧ s ≠ "known_hosts" ∧ s ≠ "config"))
    (hblob : strContains env.pubBlob "ssh-rsa" = false)
    (hemail : strContains (effEmail env email) "ssh-rsa" = false)
    (hok : generate_ssh_key env fs email (some pass) overwrite key_name =
      (.ok r, fsr, evts)) :
    r.interactive = false ∧
    pyLower (typeNameOf r.key_type) = r.key_type ∧
    (⟨typeNameOf r.key_type, r.private_key_path, r.public_key_path⟩ : KeyEntry) ∈
      find_all_ssh_keys fsr := by
  unfold generate_ssh_key at hok
  cases hd : env.dirError <;> rw [hd] at hok <;> dsimp only at hok
  case some m => simp at hok
  case none =>
    cases hav : env.sshKeygenAvailable <;> rw [hav] at hok
    case false => simp at hok
    case true =>
      simp only [Bool.not_true, Bool.false_eq_true, if_false] at hok
      cases hA : _generate_key_type env fs "ed25519" (effEmail env email) pass
          overwrite key_name with
      | mk res1 t1 =>
        obtain ⟨fs1, ev1⟩ := t1
        rw [hA] at hok
        cases res1 with
        | ok r1 =>
          dsimp only at hok
          simp only [Prod.mk.injEq, Except.ok.injEq] at hok
          obtain ⟨hre, hfse, -⟩ := hok
          subst hre
          subst hfse
          obtain ⟨priv, hres, hsucc, hint, hktp, hprv, hpb, hem, hread, hmem⟩ :=
            generate_key_type_ok hA
          have hpriv_eq : priv = targetName "ed25519" key_name := by
            have hre := resolvePaths_ed key_name
            rw [hres] at hre
            simp only [Except.ok.injEq, Prod.mk.injEq] at hre
            exact hre.1
          obtain ⟨hdot, hcond⟩ := name_conditions "ed25519" (Or.inl rfl) key_name hname
          rw [← hpriv_eq] at hdot hcond
          have hentry := mem_find_all hmem hcond
            (by rw [withSuffixPub_no_dot hdot]; exact hread)
          rw [withSuffixPub_no_dot hdot,
            classifyPub_ed (effEmail env email) env.pubBlob hblob hemail] at hentry
          refine ⟨hint, ?_, ?_⟩
          · rw [hktp]
            rfl
          · rw [hktp, hprv, hpb]
            exact hentry
        | error e =>
          dsimp only at hok
          by_cases hc : strContains (pyLower e.message) "already exists" = true
          · simp only [hc, if_true, eq_true (rfl : true = true)] at hok
            simp at hok
          · simp only [Bool.not_eq_true] at hc
            simp only [hc, Bool.false_eq_true, if_false] at hok
            cases hB : _generate_key_type env fs1 "rsa" (effEmail env email) pass
                overwrite key_name with
            | mk res2 t2 =>
              obtain ⟨fs2, ev2⟩ := t2
              rw [hB] at hok
              cases res2 with
              | error e2 =>
                dsimp only at hok
                simp at hok
              | ok r2 =>
                dsimp only at hok
                simp only [Prod.mk.injEq, Except.ok.injEq] at hok
                obtain ⟨hre, hfse, -⟩ := hok
                subst hre
                subst hfse
                obtain ⟨priv, hres, hsucc, hint, hktp, hprv, hpb, hem, hread, hmem⟩ :=
                  generate_key_type_ok hB
                have hpriv_eq : priv = targetName "rsa" key_name := by
                  have hre := resolvePaths_rsa key_name
                  rw [hres] at hre
                  simp only [Except.ok.injEq, Prod.mk.injEq] at hre
                  exact hre.1
                obtain ⟨hdot, hcond⟩ :=
                  name_conditions "rsa" (Or.inr rfl) key_name hname
                rw [← hpriv_eq] at hdot hcond
                have hentry := mem_find_all hmem hcond
                  (by rw [withSuffixPub_no_dot hdot]; exact hread)
                rw [withSuffixPub_no_dot hdot,
                  classifyPub_rsa (effEmail env email) env.pubBlob] at hentry
                refine ⟨hint, ?_, ?_⟩
                · rw [hktp]
                  rfl
                · rw [hktp, hprv, hpb]
                  exact hentry

set_option maxRecDepth 8192 in
/-- C7 witness: generation on an empty directory under the default name
is afterwards listed as an ED25519 pair. -/
theorem C7_roundtrip_discovery_witness :
    ({ success := true, key_type := "ed25519", private_key_path := "id_ed25519",
       public_key_path := "id_ed25519.pub", email := "a@b.com",
       message := "Successfully generated ed25519 SSH key pair" } : GenResult).interactive
      = false ∧
    pyLower (typeNameOf "ed25519") = "ed25519" ∧
    (⟨typeNameOf "ed25519", "id_ed25519", "id_ed25519.pub"⟩ : KeyEntry) ∈
      find_all_ssh_keys ⟨[("id_ed25519", "PRIVATE-KEY-MATERIAL"),
        ("id_ed25519.pub", "ssh-ed25519 AAAAC3NzaC1lZDI1NTE5AAAAIGtestMaterial a@b.com")]⟩ :=
  C7_roundtrip_discovery envBase fsEmpty (some "a@b.com") "" false none
    { success := true, key_type := "ed25519", private_key_path := "id_ed25519",
      public_key_path := "id_ed25519.pub", email := "a@b.com",
      message := "Successfully generated ed25519 SSH key pair" }
    ⟨[("id_ed25519", "PRIVATE-KEY-MATERIAL"),
      ("id_ed25519.pub", "ssh-ed25519 AAAAC3NzaC1lZDI1NTE5AAAAIGtestMaterial a@b.com")]⟩
    [.keygenRun ⟨"ed25519", "a@b.com", "", "id_ed25519"⟩,
     .permApply "id_ed25519" "id_ed25519.pub", .agentAdd "id_ed25519"]
    (fun s hs => by simp at hs) rfl rfl rfl

end SSHGM
